import Mathlib

/-!
Verification of the orchestration core of the reasoning-agents framework.

The Python sources under `src/` are shallowly embedded as pure Lean
functions.  External effects are passed in explicitly:

* every LLM interaction ("Reasoning Step") is an oracle, either an
  `Except String String` outcome (the text produced, or the message of the
  exception raised anywhere inside the corresponding `try` block), or a
  function `String → Except String String` from the prompt when the claim
  needs to speak about whether a call happens at all;
* every HTTP round trip to a worker is an oracle value of type
  `HttpOutcome` (status + body, timeout, or transport error);
* Python exceptions are modelled with `Except String`;
* Python `dict`/`list`/`str`/JSON values are modelled by the `Json` type
  below, and `json.loads` by an executable recursive-descent parser.
-/

/-! ## Python string primitives -/

/-- The opening-brace character, `U+007B`. -/
def lbraceC : Char := Char.ofNat 123

/-- The closing-brace character, `U+007D`. -/
def rbraceC : Char := Char.ofNat 125

/-- ASCII whitespace, as stripped by Python's `str.strip()` (the unicode
whitespace code points beyond ASCII are not modelled). -/
def isWS (c : Char) : Bool :=
  c == ' ' || c == '\t' || c == '\n' || c == '\r' || c == '\x0b' || c == '\x0c'

/-- Python `str.strip()` on the character list: drop whitespace from the
left, then from the right. -/
def pyStripData (l : List Char) : List Char :=
  ((l.dropWhile isWS).reverse.dropWhile isWS).reverse

/-- Python `str.strip()`. -/
def pyStrip (s : String) : String :=
  String.mk (pyStripData s.data)

/-- ASCII upper-casing of one character, as Python's `str.upper()` acts on
ASCII letters (non-ASCII case mappings are not modelled). -/
def toUpperC (c : Char) : Char :=
  if 'a' ≤ c ∧ c ≤ 'z' then Char.ofNat (c.toNat - 32) else c

/-- Python `str.upper()` on the character list. -/
def pyUpperData (l : List Char) : List Char :=
  l.map toUpperC

/-- `isPrefixL pat l` : does `l` start with `pat`? -/
def isPrefixL : List Char → List Char → Bool
  | [], _ => true
  | _ :: _, [] => false
  | p :: ps, c :: cs => p == c && isPrefixL ps cs

/-- Python's `pat in hay` substring test on character lists. -/
def containsSub : List Char → List Char → Bool
  | [], pat => isPrefixL pat []
  | c :: rest, pat => isPrefixL pat (c :: rest) || containsSub rest pat

/-! ## JSON values (Python dict/list/str/number/bool/None) -/

/-- JSON values.  Numbers are represented exactly as rationals (mantissa and
decimal exponent of the literal); float rounding is not modelled, and no
claim compares numeric values.  Object field lists are built with
`insertKV` below, so they carry unique keys in insertion order exactly as a
Python `dict` does. -/
inductive Json where
  | null : Json
  | bool : Bool → Json
  | num : Rat → Json
  | str : String → Json
  | arr : List Json → Json
  | obj : List (String × Json) → Json

/-- Key lookup in an object's field list (keys are unique, so first match
and Python's lookup agree). -/
def lookupField : List (String × Json) → String → Option Json
  | [], _ => none
  | (k, v) :: rest, key => if k = key then some v else lookupField rest key

/-- The field list of an object, `[]` for any other value. -/
def objFields : Json → List (String × Json)
  | .obj fs => fs
  | _ => []

/-- Python `d.get(key, default)` on a value known to be a dict (total
variant; used only where the Python receiver is always a dict). -/
def objGetD (j : Json) (key : String) (d : Json) : Json :=
  (lookupField (objFields j) key).getD d

/-- Python `x.get(key, default)` where `x` may not be a dict: a non-dict
receiver raises `AttributeError`. -/
def pyGetE (j : Json) (key : String) (d : Json) : Except String Json :=
  match j with
  | .obj fs => .ok ((lookupField fs key).getD d)
  | _ => .error "AttributeError: no attribute get"

/-- Python truthiness of a JSON-shaped value. -/
def pyTruthy : Json → Bool
  | .null => false
  | .bool b => b
  | .num q => !(q == 0)
  | .str s => !s.isEmpty
  | .arr xs => !xs.isEmpty
  | .obj fs => !fs.isEmpty

/-- Python `str(x)` for the values that can appear here.  Strings render as
themselves; for containers only a nonempty placeholder is kept, since every
Python rendering of a list/dict is nonempty ("[]", "\x7b\x7d", ...) and the
code only ever tests such a rendering for emptiness or passes it along as
opaque query text. -/
def pyStr : Json → String
  | .str s => s
  | .num q => toString q
  | .bool true => "True"
  | .bool false => "False"
  | .null => "None"
  | .arr _ => "[list]"
  | .obj _ => "\x7bdict\x7d"

/-- Python iteration `for a in x`: a list yields its elements, a string its
one-character substrings, a dict its keys.  Iterating `None`/bool/number
raises `TypeError` in Python; that unreachable case (worker results and
decoded plans are always dicts) is modelled as an empty iteration. -/
def jsonElems : Json → List Json
  | .arr xs => xs
  | .str s => s.data.map (fun c => Json.str (String.mk [c]))
  | .obj fs => fs.map (fun kv => Json.str kv.1)
  | _ => []

/-- Insert-or-update of a key in an object's field list: an existing key
keeps its position and gets the new value, a new key is appended — exactly
how a Python dict is built when `json.loads` decodes duplicate keys. -/
def insertKV : List (String × Json) → String → Json → List (String × Json)
  | [], k, v => [(k, v)]
  | (k', v') :: rest, k, v =>
      if k' = k then (k', v) :: rest else (k', v') :: insertKV rest k v

/-! ## A model of Python `json.loads`

A fuel-indexed recursive-descent parser for the JSON accepted by
`json.loads`: the six value kinds, strict number grammar (no leading
zeros, fraction and exponent parts), string escapes including `\uXXXX`
(surrogate-pair combination is not modelled, nor are the non-standard
`NaN`/`Infinity` literals Python accepts).  `jsonLoads` supplies fuel
larger than any possible recursion depth for its input. -/

/-- Skip the JSON whitespace characters (space, tab, LF, CR). -/
def skipWs (cs : List Char) : List Char :=
  cs.dropWhile (fun c => c == ' ' || c == '\t' || c == '\n' || c == '\r')

/-- Decimal digit list to a natural number. -/
def digitsToNat (l : List Char) : Nat :=
  l.foldl (fun n c => 10 * n + (c.toNat - 48)) 0

/-- Hexadecimal digit value (0 for non-hex input, which the caller rejects). -/
def hexVal (c : Char) : Nat :=
  if c.isDigit then c.toNat - 48
  else if 'a' ≤ c ∧ c ≤ 'f' then c.toNat - 87
  else if 'A' ≤ c ∧ c ≤ 'F' then c.toNat - 55
  else 0

/-- Is `c` a hexadecimal digit? -/
def isHexDigit (c : Char) : Bool :=
  c.isDigit || ('a' ≤ c && c ≤ 'f') || ('A' ≤ c && c ≤ 'F')

/-- Parse the body of a JSON string after the opening quote, handling the
escape sequences `json.loads` accepts and rejecting raw control
characters, returning the decoded string and the input after the closing
quote. -/
def parseStrBody (acc : List Char) : List Char → Option (String × List Char)
  | [] => none
  | '"' :: rest => some (String.mk acc.reverse, rest)
  | '\\' :: e :: rest =>
      if e = '"' then parseStrBody ('"' :: acc) rest
      else if e = '\\' then parseStrBody ('\\' :: acc) rest
      else if e = '/' then parseStrBody ('/' :: acc) rest
      else if e = 'b' then parseStrBody ('\x08' :: acc) rest
      else if e = 'f' then parseStrBody ('\x0c' :: acc) rest
      else if e = 'n' then parseStrBody ('\n' :: acc) rest
      else if e = 'r' then parseStrBody ('\r' :: acc) rest
      else if e = 't' then parseStrBody ('\t' :: acc) rest
      else if e = 'u' then
        match rest with
        | h1 :: h2 :: h3 :: h4 :: rest' =>
            if isHexDigit h1 && isHexDigit h2 && isHexDigit h3 && isHexDigit h4 then
              parseStrBody
                (Char.ofNat (((hexVal h1 * 16 + hexVal h2) * 16 + hexVal h3) * 16 + hexVal h4)
                  :: acc) rest'
            else none
        | _ => none
      else none
  | c :: rest =>
      if c.toNat < 32 then none else parseStrBody (c :: acc) rest

/-- Parse a JSON number (strict grammar of `json.loads`): optional minus,
integer part without leading zeros, optional fraction, optional exponent.
The value is kept exactly as a rational. -/
def parseNumber (cs : List Char) : Option (Json × List Char) :=
  let (neg, cs1) :=
    match cs with
    | '-' :: r => (true, r)
    | _ => (false, cs)
  let intDigits := cs1.takeWhile Char.isDigit
  let cs2 := cs1.dropWhile Char.isDigit
  if intDigits.isEmpty then none
  else if intDigits.length > 1 ∧ intDigits.headD '0' = '0' then none
  else
    let (fracDigits, cs3) :=
      match cs2 with
      | '.' :: r => (r.takeWhile Char.isDigit, r.dropWhile Char.isDigit)
      | _ => ([], cs2)
    match cs2 with
    | '.' :: _ =>
      if fracDigits.isEmpty then none
      else parseNumberExp neg intDigits fracDigits cs3
    | _ => parseNumberExp neg intDigits fracDigits cs3
where
  /-- Parse the optional exponent part and assemble the rational value. -/
  parseNumberExp (neg : Bool) (intDigits fracDigits : List Char) (cs : List Char) :
      Option (Json × List Char) :=
    let mkNum (expNeg : Bool) (expDigits : List Char) (rest : List Char) :
        Option (Json × List Char) :=
      let mant : Int := (digitsToNat intDigits * 10 ^ fracDigits.length + digitsToNat fracDigits : Nat)
      let mant : Int := if neg then -mant else mant
      let base : Rat := (mant : Rat) / ((10 ^ fracDigits.length) : Nat)
      let e := digitsToNat expDigits
      let v : Rat := if expNeg then base / ((10 ^ e) : Nat) else base * ((10 ^ e) : Nat)
      some (Json.num v, rest)
    match cs with
    | 'e' :: r => parseNumberExpSign mkNum r
    | 'E' :: r => parseNumberExpSign mkNum r
    | _ => mkNum false [] cs
  /-- Parse the exponent sign and digits (at least one digit required). -/
  parseNumberExpSign
      (mkNum : Bool → List Char → List Char → Option (Json × List Char))
      (cs : List Char) : Option (Json × List Char) :=
    let (eneg, cs1) :=
      match cs with
      | '-' :: r => (true, r)
      | '+' :: r => (false, r)
      | _ => (false, cs)
    let eDigits := cs1.takeWhile Char.isDigit
    if eDigits.isEmpty then none
    else mkNum eneg eDigits (cs1.dropWhile Char.isDigit)

mutual

/-- Parse one JSON value (after skipping leading whitespace). -/
def parseValue : Nat → List Char → Option (Json × List Char)
  | 0, _ => none
  | fuel + 1, cs =>
    match skipWs cs with
    | 'n' :: 'u' :: 'l' :: 'l' :: r => some (Json.null, r)
    | 't' :: 'r' :: 'u' :: 'e' :: r => some (Json.bool true, r)
    | 'f' :: 'a' :: 'l' :: 's' :: 'e' :: r => some (Json.bool false, r)
    | '"' :: r =>
        match parseStrBody [] r with
        | some (s, r') => some (Json.str s, r')
        | none => none
    | c :: r =>
        if c = lbraceC then parseObjBody fuel r
        else if c = '[' then parseArrBody fuel r
        else if c = '-' ∨ c.isDigit then parseNumber (c :: r)
        else none
    | [] => none

/-- Parse an object body after the opening brace. -/
def parseObjBody : Nat → List Char → Option (Json × List Char)
  | 0, _ => none
  | fuel + 1, cs =>
    match skipWs cs with
    | [] => none
    | c :: r =>
        if c = rbraceC then some (Json.obj [], r)
        else parseMembers fuel [] (c :: r)

/-- Parse the members of an object (key, colon, value, then comma or
closing brace), accumulating fields with dict insert-or-update semantics. -/
def parseMembers : Nat → List (String × Json) → List Char → Option (Json × List Char)
  | 0, _, _ => none
  | fuel + 1, acc, cs =>
    match cs with
    | '"' :: r =>
        (match parseStrBody [] r with
        | some (k, r1) =>
            (match skipWs r1 with
            | ':' :: r2 =>
                (match parseValue fuel r2 with
                | some (v, r3) =>
                    let acc' := insertKV acc k v
                    (match skipWs r3 with
                    | ',' :: r4 => parseMembers fuel acc' (skipWs r4)
                    | c :: r4 =>
                        if c = rbraceC then some (Json.obj acc', r4) else none
                    | [] => none)
                | none => none)
            | _ => none)
        | none => none)
    | _ => none

/-- Parse an array body after the opening bracket. -/
def parseArrBody : Nat → List Char → Option (Json × List Char)
  | 0, _ => none
  | fuel + 1, cs =>
    match skipWs cs with
    | [] => none
    | ']' :: r => some (Json.arr [], r)
    | c :: r => parseItems fuel [] (c :: r)

/-- Parse the items of a non-empty array. -/
def parseItems : Nat → List Json → List Char → Option (Json × List Char)
  | 0, _, _ => none
  | fuel + 1, acc, cs =>
    match parseValue fuel cs with
    | some (v, r) =>
        (match skipWs r with
        | ',' :: r' => parseItems fuel (v :: acc) r'
        | ']' :: r' => some (Json.arr (v :: acc).reverse, r')
        | _ => none)
    | none => none

end

/-- Python `json.loads`: parse one value and require only whitespace to
remain.  The fuel exceeds any possible recursion depth for the input. -/
def jsonLoads (s : String) : Option Json :=
  match parseValue (4 * s.length + 8) s.data with
  | some (v, rest) => if (skipWs rest).isEmpty then some v else none
  | none => none

/-! ## Classifier — `LegalManagerAgent._classify_complexity`
(src/agents/manager/manager_agent.py, lines 152-182) -/

/-- `QueryComplexity` from src/agents/manager/manager_agent.py. -/
inductive QueryComplexity where
  | SIMPLE : QueryComplexity
  | COMPLEX : QueryComplexity
deriving DecidableEq

/-- `_classify_complexity`: the Reasoning Step oracle `out` is the outcome
of the `try` body up to and including `llm.ainvoke` (`.error` models any
exception raised there, caught by the `except` clause).  On a response the
code takes `response.content.strip().upper()` and tests `"COMPLEX" in` it;
on any failure it defaults to `SIMPLE`. -/
def classify_complexity (out : Except String String) : QueryComplexity :=
  match out with
  | .error _ => .SIMPLE
  | .ok content =>
      let classification := pyUpperData (pyStripData content.data)
      if containsSub classification "COMPLEX".data then .COMPLEX
      else .SIMPLE

/-! ## Planner — `LegalManagerAgent._plan_execution`
(src/agents/manager/manager_agent.py, lines 188-236) -/

/-- The model of `re.search(r'\x7b.*\x7d', content, re.DOTALL)` followed by
`match.group()`: the regex is greedy, so the match (when one exists) runs
from the first opening brace of the string to the last closing brace, and
exists exactly when some closing brace follows the first opening brace. -/
def extractBraces (cs : List Char) : Option (List Char) :=
  if 2 ≤ (((cs.dropWhile (fun c => c ≠ lbraceC)).reverse.dropWhile
      (fun c => c ≠ rbraceC)).reverse).length then
    some ((cs.dropWhile (fun c => c ≠ lbraceC)).reverse.dropWhile
      (fun c => c ≠ rbraceC)).reverse
  else none

/-- The default plan returned by `_plan_execution` when the response holds
no regex match (it carries a `reasoning` field). -/
def planDefaultFull : Json :=
  Json.obj [("agents", Json.arr [Json.str "worker_agent_1"]),
            ("parallel", Json.bool false),
            ("reasoning", Json.str "Default to data extraction")]

/-- The default plan returned by `_plan_execution`'s `except` clause (no
`reasoning` field). -/
def planDefaultMinimal : Json :=
  Json.obj [("agents", Json.arr [Json.str "worker_agent_1"]),
            ("parallel", Json.bool false)]

/-- The decode pipeline `_plan_execution` applies to a Reasoning Step
response: strip, regex-extract the brace span, `json.loads` it. -/
def plan_decode (content : String) : Option Json :=
  match extractBraces (pyStrip content).data with
  | some sub => jsonLoads (String.mk sub)
  | none => none

/-- `_plan_execution`: the oracle `out` is the outcome of the `try` body up
to and including `llm.ainvoke`.  A decoded object is returned as-is (the
code performs no schema validation); a response with no brace span returns
the full default plan; a decode failure (a `json.loads` exception) or a
Reasoning Step failure returns the minimal default plan via the `except`
clause. -/
def plan_execution (out : Except String String) : Json :=
  match out with
  | .error _ => planDefaultMinimal
  | .ok content =>
      match extractBraces (pyStrip content).data with
      | some sub =>
          (match jsonLoads (String.mk sub) with
          | some plan => plan
          | none => planDefaultMinimal)
      | none => planDefaultFull

/-! ## Dispatcher — `LegalManagerAgent._call_worker` and `_execute_plan`
(src/agents/manager/manager_agent.py, lines 242-333) -/

/-- The outcome of one HTTP round trip to a worker's `/task` endpoint, as
seen by `_call_worker`: a response with a status code and a body, a
timeout (`asyncio.TimeoutError`), or any other transport exception with
its message. -/
inductive HttpOutcome where
  | response : Nat → String → HttpOutcome
  | timeout : HttpOutcome
  | transportError : String → HttpOutcome

/-- Placeholder for the message text of a `json` decode exception raised by
`response.json()`; only its presence matters, the library's exact wording
is not modelled. -/
def jsonDecodeErrMsg : String := "JSON decode error"

/-- `_call_worker`: classifies the outcome of one call.  Status 200 with a
body that parses yields a success dict carrying the parsed result; a
malformed body on status 200 (an exception from `response.json()`), a
non-200 status, a timeout, or a transport error each yield a failure dict
with an `error` field.  Every branch returns a dict; no exception escapes. -/
def call_worker (agent_url : String) (outcome : HttpOutcome) : Json :=
  match outcome with
  | .response status body =>
      if status = 200 then
        match jsonLoads body with
        | some result =>
            Json.obj [("success", Json.bool true),
                      ("result", result),
                      ("agent_url", Json.str agent_url)]
        | none =>
            Json.obj [("success", Json.bool false),
                      ("error", Json.str jsonDecodeErrMsg),
                      ("agent_url", Json.str agent_url)]
      else
        Json.obj [("success", Json.bool false),
                  ("error", Json.str ("HTTP " ++ toString status)),
                  ("agent_url", Json.str agent_url)]
  | .timeout =>
      Json.obj [("success", Json.bool false),
                ("error", Json.str "Timeout"),
                ("agent_url", Json.str agent_url)]
  | .transportError e =>
      Json.obj [("success", Json.bool false),
                ("error", Json.str e),
                ("agent_url", Json.str agent_url)]

/-- The `agent_map` of `_execute_plan`: plan identifiers resolve to the two
worker URLs (with the two backward-compatibility aliases); everything
else — including any non-string plan entry — has no mapping.  (A Python
`in` test on a dict is `False` for any non-key hashable; an unhashable
entry would raise, a case no decoded JSON plan can produce since JSON
array elements are never Python-unhashable... lists/dicts as elements
would raise `TypeError`, which is outside the dispatcher-level claims and
surfaces through the outer task handler.) -/
def agentMap (w1 w2 : String) : Json → Option String
  | .str s =>
      if s = "worker_agent_1" then some w1
      else if s = "worker_agent_2" then some w2
      else if s = "clause_agent" then some w1
      else if s = "compliance_agent" then some w2
      else none
  | _ => none

/-- The sequential branch of `_execute_plan`: call each resolvable agent in
plan order, appending each result; unresolvable identifiers are skipped.
A failing call contributes its failure dict and the loop continues. -/
def executeSeq (w1 w2 : String) (call : String → String → Json) (query : String) :
    List Json → List Json
  | [] => []
  | a :: rest =>
      match agentMap w1 w2 a with
      | some url => call url query :: executeSeq w1 w2 call query rest
      | none => executeSeq w1 w2 call query rest

/-- `_execute_plan`: reads `agents` and `parallel` from the plan dict with
Python `.get` defaults, then dispatches.  The parallel branch builds one
task per resolvable agent in plan order and gathers them; `asyncio.gather`
returns results in task order, modelled as a `map` (the
`isinstance(r, Exception)` rewrite after `gather` is dead code here, since
`_call_worker` is total — see `call_worker`).  The sequential branch is
`executeSeq`.  `call url query` is the oracle for one worker round trip. -/
def execute_plan (w1 w2 : String) (call : String → String → Json) (query : String)
    (plan : Json) : List Json :=
  let agents_to_call := jsonElems (objGetD plan "agents" (Json.arr []))
  let is_parallel := pyTruthy (objGetD plan "parallel" (Json.bool false))
  if is_parallel then
    (agents_to_call.filter (fun a => (agentMap w1 w2 a).isSome)).map
      (fun a => call ((agentMap w1 w2 a).getD "") query)
  else
    executeSeq w1 w2 call query agents_to_call

/-! ## Synthesizer — `LegalManagerAgent._synthesize_results`
(src/agents/manager/manager_agent.py, lines 339-388) -/

/-- Python `x[0]` on a JSON-shaped value: first element of a list, first
character of a string; anything else raises (`TypeError`/`KeyError`, and
`IndexError` on an empty list). -/
def pySub0 : Json → Except String Json
  | .arr (x :: _) => .ok x
  | .arr [] => .error "IndexError: list index out of range"
  | .str s =>
      (match s.data with
      | c :: _ => .ok (Json.str (String.mk [c]))
      | [] => .error "IndexError: string index out of range")
  | _ => .error "TypeError: not subscriptable"

/-- The result-text extraction loop of `_synthesize_results`: for each
entry whose `success` field is truthy, read
`r.get("result", \x7b\x7d).get("artifacts", [])`, and if that is truthy take
`artifacts[0].get("parts", [])`, and if that is truthy take
`parts[0].get("text", "")`, collecting
`f"Agent \x7bi+1\x7d Result:\n\x7btext\x7d"`.  Any attribute/subscript error on a
malformed entry propagates (to be caught by the enclosing `try`). -/
def extractResultTexts (i : Nat) : List Json → Except String (List String)
  | [] => .ok []
  | r :: rest =>
      match pyGetE r "success" Json.null with
      | .ok successV =>
          if pyTruthy successV then do
            let resultV ← pyGetE r "result" (Json.obj [])
            let artifacts ← pyGetE resultV "artifacts" (Json.arr [])
            if pyTruthy artifacts then do
              let a0 ← pySub0 artifacts
              let parts ← pyGetE a0 "parts" (Json.arr [])
              if pyTruthy parts then do
                let p0 ← pySub0 parts
                let textV ← pyGetE p0 "text" (Json.str "")
                let restTexts ← extractResultTexts (i + 1) rest
                pure (("Agent " ++ toString (i + 1) ++ " Result:\n" ++ pyStr textV)
                  :: restTexts)
              else extractResultTexts (i + 1) rest
            else extractResultTexts (i + 1) rest
          else extractResultTexts (i + 1) rest
      | .error e => .error e

/-- The synthesis prompt built by `_synthesize_results` from the query and
the collected result texts (joined with `chr(10)`). -/
def synthesis_prompt (query : String) (texts : List String) : String :=
  "Synthesize these results into a comprehensive answer.\n\nORIGINAL QUERY: "
    ++ query
    ++ "\n\nAGENT RESULTS:\n"
    ++ String.intercalate "\n" texts
    ++ "\n\nCreate a unified response that:\n1. Answers the original query directly\n2. Integrates insights from all sources\n3. Highlights key findings and recommendations\n4. Notes any conflicts or uncertainties"

/-- The canonical message `_synthesize_results` returns when no successful
result text was collected. -/
def noResultsMsg : String := "No results obtained from worker agents."

/-- `_synthesize_results`: extract the successful result texts; if none,
return the canonical message without a Reasoning Step call; otherwise
invoke the Reasoning Step on the synthesis prompt and return the stripped
response.  `invoke` is the Reasoning Step oracle as a function of the
prompt (`_create_llm` is a local client constructor, modelled as
non-failing; a failure of the invocation is the oracle's `.error`).  Any
exception inside the `try` — including extraction errors on malformed
entries — is caught and returned as `"Synthesis error: ..."`; the function
is total. -/
def synthesize_results (invoke : String → Except String String) (query : String)
    (results : List Json) : String :=
  match (do
    let result_texts ← extractResultTexts 0 results
    if result_texts.isEmpty then
      pure noResultsMsg
    else do
      let response ← invoke (synthesis_prompt query result_texts)
      pure (pyStrip response) : Except String String) with
  | .ok s => s
  | .error e => "Synthesis error: " ++ e

/-! ## Task Protocol — shared `handle_task`
(src/core/base_agent.py lines 315-394, src/agents/manager/manager_agent.py
lines 447-483: the two handlers are identical in shape and differ only in
the prompt-for-input text and the processing function, which are
parameters here.) -/

/-- `TaskState` from python_a2a, as used by the handlers. -/
inductive PTaskState where
  | PROCESSING : PTaskState
  | COMPLETED : PTaskState
  | INPUT_REQUIRED : PTaskState
  | FAILED : PTaskState
deriving DecidableEq

/-- `TaskStatus`: a state and an optional agent message. -/
structure PTaskStatus where
  state : PTaskState
  message : Option Json

/-- The protocol-level `Task`: inbound message, status, outbound artifacts. -/
structure PTask where
  message : Option Json
  status : PTaskStatus
  artifacts : Option Json

/-- The `\x7b"role": "agent", "content": \x7b"text": t\x7d\x7d` status message the
handlers attach to INPUT_REQUIRED and FAILED statuses. -/
def agentMsg (t : String) : Json :=
  Json.obj [("role", Json.str "agent"),
            ("content", Json.obj [("text", Json.str t)])]

/-- A single text artifact `\x7b"parts": [\x7b"type": "text", "text": t\x7d]\x7d`. -/
def textArtifact (t : String) : Json :=
  Json.obj [("parts", Json.arr [Json.obj [("type", Json.str "text"),
                                          ("text", Json.str t)]])]

/-- Query extraction shared by both `handle_task` bodies (and factored out
as `BaseAgent._extract_query`): `message = task.message or \x7b\x7d`,
`content = message.get("content", \x7b\x7d)`, then `content.get("text", "")`
when `content` is a dict and `str(content)` otherwise.  `.get` on a
non-dict message raises, which the handler's `except` catches. -/
def extract_query (task : PTask) : Except String Json := do
  let message : Json :=
    match task.message with
    | some m => if pyTruthy m then m else Json.obj []
    | none => Json.obj []
  let content ← pyGetE message "content" (Json.obj [])
  pure (match content with
    | .obj _ => objGetD content "text" (Json.str "")
    | _ => Json.str (pyStr content))

/-- The shared `handle_task` flow: set PROCESSING, extract the query; if it
is falsy, return INPUT_REQUIRED with the prompt message; otherwise run the
processing function (`process` is its oracle: the Orchestrator's pipeline
or the Worker's reasoning loop) and return COMPLETED with the result as a
single text artifact; any exception inside the `try` — from extraction or
from `process` — yields FAILED with `"Error: " ++ message` and never
escapes (the function is total). -/
def handle_task (prompt : String) (process : Json → Except String String)
    (task : PTask) : PTask :=
  match extract_query { task with status := ⟨.PROCESSING, none⟩ } with
  | .error e => { task with status := ⟨.FAILED, some (agentMsg ("Error: " ++ e))⟩ }
  | .ok query =>
      if ¬ pyTruthy query then
        { task with status := ⟨.INPUT_REQUIRED, some (agentMsg prompt)⟩ }
      else
        match process query with
        | .ok result =>
            { task with
                artifacts := some (Json.arr [textArtifact result]),
                status := ⟨.COMPLETED, none⟩ }
        | .error e => { task with status := ⟨.FAILED, some (agentMsg ("Error: " ++ e))⟩ }

/-! ## Wire endpoint — `handle_task_endpoint`
(src/agents/manager/manager_agent.py lines 516-568 and
src/core/base_agent.py lines 433-485: identical in shape; the
prompt-for-input text and the processing function are parameters.) -/

/-- The JSON response the endpoint returns for a falsy query: state
`input_required`, and ONE artifact carrying the prompt-for-input text. -/
def inputRequiredResponse (id : Json) (prompt : String) : Json :=
  Json.obj [("id", id),
            ("status", Json.obj [("state", Json.str "input_required")]),
            ("artifacts", Json.arr [textArtifact prompt])]

/-- The JSON response for a processed query: state `completed`, one text
artifact with the result. -/
def completedResponse (id : Json) (result : String) : Json :=
  Json.obj [("id", id),
            ("status", Json.obj [("state", Json.str "completed")]),
            ("artifacts", Json.arr [textArtifact result])]

/-- The JSON response built in the endpoint's `except` clause: empty id,
state `failed`, and ONE artifact carrying `"Error: " ++ message`. -/
def failedResponse (e : String) : Json :=
  Json.obj [("id", Json.str ""),
            ("status", Json.obj [("state", Json.str "failed")]),
            ("artifacts", Json.arr [textArtifact ("Error: " ++ e)])]

/-- The `try` body of `handle_task_endpoint`: read `message`/`content` from
the request body `data` (a `.get` on a non-dict raises), extract the query
the same way as `handle_task`, answer `input_required` on a falsy query,
otherwise run the processing function and answer `completed`. -/
def endpointBody (prompt : String) (process : Json → Except String String)
    (data : Json) : Except String Json :=
  match pyGetE data "message" (Json.obj []) with
  | .error e => .error e
  | .ok message =>
      match pyGetE message "content" (Json.obj []) with
      | .error e => .error e
      | .ok content =>
          match (match content with
            | .obj _ => objGetD content "text" (Json.str "")
            | _ => Json.str (pyStr content)) with
          | query =>
            if ¬ pyTruthy query then
              .ok (inputRequiredResponse (objGetD data "id" (Json.str "")) prompt)
            else
              match process query with
              | .ok result =>
                  .ok (completedResponse (objGetD data "id" (Json.str "")) result)
              | .error e => .error e

/-- `handle_task_endpoint`: the `try` body with its `except` clause mapping
any exception to the `failed` response.  Total: every request gets one of
the three responses. -/
def handle_task_endpoint (prompt : String) (process : Json → Except String String)
    (data : Json) : Json :=
  match endpointBody prompt process data with
  | .ok resp => resp
  | .error e => failedResponse e

/-- The `status.state` string of an endpoint response. -/
def responseState (resp : Json) : Json :=
  objGetD (objGetD resp "status" (Json.obj [])) "state" (Json.str "")

/-- The artifacts sequence of an endpoint response. -/
def responseArtifacts (resp : Json) : List Json :=
  jsonElems (objGetD resp "artifacts" (Json.arr []))

/-! ## Worker reasoning-loop wrapper
(src/core/base_agent.py lines 200-309 `ensure_mcp_initialized` /
`run_react_agent`, and `process_query` of
src/agents/workers/worker_agent_1.py lines 84-96 and
src/agents/workers/worker_agent_2.py, which are identical.) -/

/-- The lazily-initialized per-process MCP state of a worker: whether the
client handle is set, and the cached tool list. -/
structure McpState where
  clientSet : Bool
  tools : List String

/-- `ensure_mcp_initialized` (source name `ensure_mcp_initialized`): return
immediately when the client is already set; with an empty MCP
configuration return `True` without touching the state ("not an error,
just no tools"); otherwise attempt initialization — `initResult` is the
oracle for `MultiServerMCPClient(...)` plus `get_tools()` — caching the
tools on success and returning `False` on failure.  Returns the
ready-flag and the updated state; never raises. -/
def ensure_mcp_ready (st : McpState) (mcp_config : List (String × String))
    (initResult : Except String (List String)) : Bool × McpState :=
  if st.clientSet then (true, st)
  else if mcp_config.isEmpty then (true, st)
  else
    match initResult with
    | .ok tools => (true, { clientSet := true, tools := tools })
    | .error _ => (false, st)

/-- `run_react_agent`: ensure MCP is ready (descriptive error string if
not), require a nonempty tool list (descriptive error string if empty),
then run the bounded ReAct loop — `agentInvoke` is the oracle for
`create_react_agent` + `agent.ainvoke`, whose `.error` (an exception)
propagates out of this function to the caller. -/
def run_react_agent (st : McpState) (mcp_config : List (String × String))
    (initResult : Except String (List String))
    (agentInvoke : Except String String) : Except String String × McpState :=
  match ensure_mcp_ready st mcp_config initResult with
  | (false, st') => (.ok "Error: Failed to initialize MCP tools", st')
  | (true, st') =>
      if st'.tools.isEmpty then (.ok "Error: No tools available", st')
      else
        match agentInvoke with
        | .ok response => (.ok response, st')
        | .error e => (.error e, st')

/-- The worker `process_query` (identical in worker_agent_1 and
worker_agent_2): run the ReAct wrapper and catch any exception into the
string `"Error processing query: ..."`.  Total: it never raises. -/
def worker_process_query (st : McpState) (mcp_config : List (String × String))
    (initResult : Except String (List String))
    (agentInvoke : Except String String) : String × McpState :=
  match run_react_agent st mcp_config initResult agentInvoke with
  | (.ok result, st') => (result, st')
  | (.error e, st') => ("Error processing query: " ++ e, st')

/-! ## Orchestrator pipeline — `LegalManagerAgent.analyze_legal_query`
(src/agents/manager/manager_agent.py, lines 399-441) -/

/-- `analyze_legal_query`: classify (the result is logged and bound but
never read afterwards), plan, execute, synthesize.  Each stage's oracles
are passed explicitly; every stage is total, so the surrounding
`try`/`except` (which would return `"Analysis error: ..."`) has nothing to
catch in this model. -/
def analyze_legal_query (w1 w2 : String) (classifyOut planOut : Except String String)
    (call : String → String → Json) (invoke : String → Except String String)
    (query : String) : String :=
  let _complexity := classify_complexity classifyOut
  let plan := plan_execution planOut
  let results := execute_plan w1 w2 call query plan
  let final_answer := synthesize_results invoke query results
  final_answer

/-! ## Observation helpers used by the claims -/

/-- The truthiness of a WorkerCallResult's `success` field, as the code
reads it (`r.get("success")`). -/
def getSuccessB (r : Json) : Bool :=
  pyTruthy (objGetD r "success" Json.null)

/-- The `error` field of a WorkerCallResult, when present. -/
def getErrorField (r : Json) : Option Json :=
  lookupField (objFields r) "error"

/-- A results sequence with no successful entry: every entry is a dict
whose `success` field reads falsy (every `_call_worker` output is such a
dict when the call failed). -/
def allFailed (results : List Json) : Prop :=
  ∀ r ∈ results, ∃ fs, r = Json.obj fs ∧ pyTruthy (objGetD r "success" Json.null) = false

/-- A well-shaped `/task` request body with an `id` and a query text, as in
§6 of the wire protocol. -/
def mkTaskRequest (idv : Json) (q : String) : Json :=
  Json.obj [("id", idv),
            ("message", Json.obj [("content", Json.obj [("text", Json.str q)])])]

/-! ## General list lemmas -/

/-- Dropping over an append whose left part is fully dropped. -/
theorem dropWhile_append_all {α} (p : α → Bool) (a b : List α)
    (h : ∀ c ∈ a, p c = true) : (a ++ b).dropWhile p = b.dropWhile p := by
  induction a with
  | nil => rfl
  | cons c a' ih =>
      simp only [List.cons_append, List.dropWhile_cons]
      rw [h c (List.mem_cons_self _ _)]
      exact ih (fun d hd => h d (List.mem_cons_of_mem _ hd))

/-- Dropping over an append stops at the first kept element. -/
theorem dropWhile_eq_cons_of_all {α} (p : α → Bool) (a : List α) (x : α) (b : List α)
    (ha : ∀ c ∈ a, p c = true) (hx : p x = false) :
    (a ++ x :: b).dropWhile p = x :: b := by
  rw [dropWhile_append_all p a _ ha]
  simp [List.dropWhile_cons, hx]

/-- Dropping over an append whose left part is not fully dropped. -/
theorem dropWhile_append_of_ne_nil {α} (p : α → Bool) (a b : List α)
    (h : a.dropWhile p ≠ []) : (a ++ b).dropWhile p = a.dropWhile p ++ b := by
  induction a with
  | nil => simp [List.dropWhile] at h
  | cons c a' ih =>
      by_cases hc : p c = true
      · simp only [List.cons_append, List.dropWhile_cons, hc] at h ⊢
        exact ih h
      · have hc' : p c = false := by revert hc; cases p c <;> simp
        simp [List.cons_append, List.dropWhile_cons, hc']

/-- Two nested `dropWhile`s collapse when the inner predicate implies the
outer one. -/
theorem dropWhile_dropWhile {α} (p q : α → Bool) (l : List α)
    (h : ∀ c, q c = true → p c = true) :
    (l.dropWhile q).dropWhile p = l.dropWhile p := by
  induction l with
  | nil => rfl
  | cons c l' ih =>
      by_cases hq : q c = true
      · simp only [List.dropWhile_cons, hq, h c hq]
        simpa [h c hq] using ih
      · have hq' : q c = false := by revert hq; cases q c <;> simp
        simp [List.dropWhile_cons, hq']

/-! ## Whitespace lemmas for the classifier -/

/-- A pattern with no whitespace, tested against `x` followed by
whitespace, matches exactly when it matches against `x` alone. -/
theorem isPrefixL_append_ws : ∀ (P x w : List Char),
    (∀ c ∈ P, isWS c = false) → (∀ c ∈ w, isWS c = true) →
    isPrefixL P (x ++ w) = isPrefixL P x
  | [], _, _, _, _ => rfl
  | p :: P', [], w, hP, hw => by
      cases w with
      | nil => rfl
      | cons d w' =>
          have hpd : (p == d) = false := by
            apply beq_eq_false_iff_ne.mpr
            intro he
            have h1 := hP p (List.mem_cons_self _ _)
            have h2 := hw d (List.mem_cons_self _ _)
            rw [he, h2] at h1
            exact absurd h1 (by simp)
          simp [isPrefixL, hpd]
  | p :: P', c :: x', w, hP, hw => by
      simp only [List.cons_append, isPrefixL, List.append_eq]
      rw [isPrefixL_append_ws P' x' w (fun d hd => hP d (List.mem_cons_of_mem _ hd)) hw]

/-- Leading whitespace does not affect the substring test for a pattern
whose head is not whitespace. -/
theorem containsSub_ws_append : ∀ (w l : List Char) (p : Char) (P' : List Char),
    isWS p = false → (∀ c ∈ w, isWS c = true) →
    containsSub (w ++ l) (p :: P') = containsSub l (p :: P')
  | [], _, _, _, _, _ => rfl
  | d :: w', l, p, P', hp, hw => by
      have hpd : (p == d) = false := by
        apply beq_eq_false_iff_ne.mpr
        intro he
        have h2 := hw d (List.mem_cons_self _ _)
        rw [he, h2] at hp
        exact absurd hp (by simp)
      simp only [List.cons_append, containsSub, isPrefixL, hpd, Bool.false_and,
        Bool.false_or]
      exact containsSub_ws_append w' l p P' hp
        (fun c hc => hw c (List.mem_cons_of_mem _ hc))

/-- Trailing whitespace does not affect the substring test for a nonempty
pattern containing no whitespace. -/
theorem containsSub_append_ws : ∀ (l w : List Char) (p : Char) (P' : List Char),
    (∀ c ∈ p :: P', isWS c = false) → (∀ c ∈ w, isWS c = true) →
    containsSub (l ++ w) (p :: P') = containsSub l (p :: P')
  | [], w, p, P', hP, hw => by
      have h1 : containsSub (w ++ []) (p :: P') = containsSub [] (p :: P') :=
        containsSub_ws_append w [] p P' (hP p (List.mem_cons_self _ _)) hw
      simpa using h1
  | c :: l', w, p, P', hP, hw => by
      simp only [List.cons_append, containsSub, List.append_eq]
      rw [containsSub_append_ws l' w p P' hP hw, ← List.cons_append,
          isPrefixL_append_ws (p :: P') (c :: l') w hP hw]

/-- Upper-casing fixes whitespace characters. -/
theorem toUpperC_ws (c : Char) (h : isWS c = true) : toUpperC c = c := by
  simp only [isWS, Bool.or_eq_true, beq_iff_eq] at h
  rcases h with ((((rfl | rfl) | rfl) | rfl) | rfl) | rfl <;> decide

/-- Upper-casing a list of whitespace characters yields whitespace. -/
theorem isWS_map_toUpper (w : List Char) (h : ∀ c ∈ w, isWS c = true) :
    ∀ c ∈ w.map toUpperC, isWS c = true := by
  intro c hc
  rw [List.mem_map] at hc
  obtain ⟨d, hd, rfl⟩ := hc
  rw [toUpperC_ws d (h d hd)]
  exact h d hd

/-- Every character list splits as leading whitespace, its stripped core,
and trailing whitespace. -/
theorem pyStripData_decomp (l : List Char) :
    ∃ w₁ w₂, l = w₁ ++ (pyStripData l ++ w₂) ∧
      (∀ c ∈ w₁, isWS c = true) ∧ (∀ c ∈ w₂, isWS c = true) := by
  refine ⟨l.takeWhile isWS, ((l.dropWhile isWS).reverse.takeWhile isWS).reverse, ?_, ?_, ?_⟩
  · have h1 : l.takeWhile isWS ++ l.dropWhile isWS = l :=
      List.takeWhile_append_dropWhile isWS l
    have h2 : (l.dropWhile isWS).reverse.takeWhile isWS ++
        (l.dropWhile isWS).reverse.dropWhile isWS = (l.dropWhile isWS).reverse :=
      List.takeWhile_append_dropWhile isWS (l.dropWhile isWS).reverse
    have h3 : l.dropWhile isWS =
        pyStripData l ++ ((l.dropWhile isWS).reverse.takeWhile isWS).reverse := by
      unfold pyStripData
      conv_lhs => rw [← List.reverse_reverse (l.dropWhile isWS), ← h2]
      rw [List.reverse_append]
    conv_lhs => rw [← h1, h3]
  · exact fun c hc => List.mem_takeWhile_imp hc
  · intro c hc
    rw [List.mem_reverse] at hc
    exact List.mem_takeWhile_imp hc

/-- The classifier's `strip()` before upper-casing does not change whether
"COMPLEX" occurs as a substring. -/
theorem containsSub_upper_strip (l : List Char) :
    containsSub (pyUpperData (pyStripData l)) "COMPLEX".data
      = containsSub (pyUpperData l) "COMPLEX".data := by
  obtain ⟨w₁, w₂, hdecomp, hw₁, hw₂⟩ := pyStripData_decomp l
  have hP : ∀ c ∈ "COMPLEX".data, isWS c = false := by decide
  have hshape : "COMPLEX".data = 'C' :: "OMPLEX".data := rfl
  conv_rhs => rw [hdecomp]
  unfold pyUpperData
  rw [List.map_append, List.map_append, hshape]
  rw [containsSub_ws_append (w₁.map toUpperC) _ 'C' "OMPLEX".data
    (by decide) (isWS_map_toUpper w₁ hw₁)]
  rw [containsSub_append_ws (pyStripData l |>.map toUpperC) (w₂.map toUpperC)
    'C' "OMPLEX".data (by rw [← hshape]; exact hP) (isWS_map_toUpper w₂ hw₂)]

/-! ## Brace-extraction lemmas for the planner -/

/-- Characters kept by the first-brace scan. -/
theorem not_lbrace_of_ws (c : Char) (h : isWS c = true) :
    (decide (c ≠ lbraceC)) = true := by
  simp only [isWS, Bool.or_eq_true, beq_iff_eq] at h
  rcases h with ((((rfl | rfl) | rfl) | rfl) | rfl) | rfl <;> decide

/-- Characters kept by the last-brace scan. -/
theorem not_rbrace_of_ws (c : Char) (h : isWS c = true) :
    (decide (c ≠ rbraceC)) = true := by
  simp only [isWS, Bool.or_eq_true, beq_iff_eq] at h
  rcases h with ((((rfl | rfl) | rfl) | rfl) | rfl) | rfl <;> decide

/-- Appending trailing whitespace does not change the greedy brace
extraction. -/
theorem extractBraces_append_ws (a w : List Char) (hw : ∀ c ∈ w, isWS c = true) :
    extractBraces (a ++ w) = extractBraces a := by
  unfold extractBraces
  cases hda : a.dropWhile (fun c => decide (c ≠ lbraceC)) with
  | nil =>
      have hall : ∀ c ∈ a, (decide (c ≠ lbraceC)) = true :=
        List.dropWhile_eq_nil_iff.mp hda
      have h1 : (a ++ w).dropWhile (fun c => decide (c ≠ lbraceC))
          = w.dropWhile (fun c => decide (c ≠ lbraceC)) :=
        dropWhile_append_all _ a w hall
      have h2 : w.dropWhile (fun c => decide (c ≠ lbraceC)) = [] :=
        List.dropWhile_eq_nil_iff.mpr (fun c hc => not_lbrace_of_ws c (hw c hc))
      rw [h1, h2]
  | cons x xs =>
      have h1 : (a ++ w).dropWhile (fun c => decide (c ≠ lbraceC))
          = (x :: xs) ++ w := by
        rw [dropWhile_append_of_ne_nil _ a w (by rw [hda]; simp), hda]
      rw [h1]
      have h2 : ((x :: xs) ++ w).reverse = w.reverse ++ (x :: xs).reverse := by
        rw [List.reverse_append]
      rw [h2, dropWhile_append_all _ w.reverse _
        (fun c hc => not_rbrace_of_ws c (hw c (List.mem_reverse.mp hc)))]

/-- `strip()` before the regex search does not change the greedy brace
extraction. -/
theorem extractBraces_pyStrip (l : List Char) :
    extractBraces (pyStripData l) = extractBraces l := by
  have himp : ∀ c : Char, isWS c = true → (decide (c ≠ lbraceC)) = true :=
    not_lbrace_of_ws
  have h2 : (l.dropWhile isWS).reverse.takeWhile isWS ++
      (l.dropWhile isWS).reverse.dropWhile isWS = (l.dropWhile isWS).reverse :=
    List.takeWhile_append_dropWhile isWS (l.dropWhile isWS).reverse
  have hd : l.dropWhile isWS =
      pyStripData l ++ ((l.dropWhile isWS).reverse.takeWhile isWS).reverse := by
    unfold pyStripData
    conv_lhs => rw [← List.reverse_reverse (l.dropWhile isWS), ← h2]
    rw [List.reverse_append]
  have hstep1 : extractBraces (pyStripData l) = extractBraces (l.dropWhile isWS) := by
    conv_rhs => rw [hd]
    exact (extractBraces_append_ws _ _ (by
      intro c hc
      rw [List.mem_reverse] at hc
      exact List.mem_takeWhile_imp hc)).symm
  rw [hstep1]
  unfold extractBraces
  rw [dropWhile_dropWhile _ isWS l himp]

/-- The greedy regex `\x7b.*\x7d` with DOTALL: on input
`pre ++ '\x7b' ++ mid ++ '\x7d' ++ post` with no opening brace in `pre` and no
closing brace in `post`, the match runs from that first opening brace to
that last closing brace. -/
theorem extractBraces_eq (pre mid post : List Char)
    (h1 : lbraceC ∉ pre) (h2 : rbraceC ∉ post) :
    extractBraces (pre ++ lbraceC :: (mid ++ rbraceC :: post))
      = some (lbraceC :: (mid ++ [rbraceC])) := by
  unfold extractBraces
  have hpre : ∀ c ∈ pre, (decide (c ≠ lbraceC)) = true := by
    intro c hc
    simp only [decide_eq_true_eq]
    intro he
    exact h1 (he ▸ hc)
  have ht : (pre ++ lbraceC :: (mid ++ rbraceC :: post)).dropWhile
      (fun c => decide (c ≠ lbraceC)) = lbraceC :: (mid ++ rbraceC :: post) :=
    dropWhile_eq_cons_of_all _ pre lbraceC _ hpre (by simp)
  rw [ht]
  have hrev : (lbraceC :: (mid ++ rbraceC :: post)).reverse
      = post.reverse ++ rbraceC :: (mid.reverse ++ [lbraceC]) := by
    simp [List.reverse_cons, List.reverse_append]
  have hpost : ∀ c ∈ post.reverse, (decide (c ≠ rbraceC)) = true := by
    intro c hc
    simp only [decide_eq_true_eq]
    intro he
    exact h2 (he ▸ List.mem_reverse.mp hc)
  rw [hrev, dropWhile_eq_cons_of_all _ post.reverse rbraceC _ hpost (by simp)]
  simp

/-! ## Dispatcher lemmas -/

/-- The sequential dispatch loop equals the resolvable-filtered map. -/
theorem executeSeq_eq (w1 w2 : String) (call : String → String → Json) (q : String) :
    ∀ agents : List Json,
      executeSeq w1 w2 call q agents
        = (agents.filter (fun a => (agentMap w1 w2 a).isSome)).map
            (fun a => call ((agentMap w1 w2 a).getD "") q)
  | [] => rfl
  | a :: rest => by
      unfold executeSeq
      cases ha : agentMap w1 w2 a with
      | none => simp [List.filter_cons, ha, executeSeq_eq w1 w2 call q rest]
      | some url => simp [List.filter_cons, ha, executeSeq_eq w1 w2 call q rest]

/-! ## Claim theorems -/

/-- C10: the orchestrator pipeline's final answer is independent of the
classification result: two runs differing only in the classifier's outcome
(with planner, dispatcher and synthesizer oracles identical) produce the
identical final answer, which equals the plan/execute/synthesize chain
without the classifier. -/
theorem claim_C10_classification_independent (w1 w2 : String)
    (c c' p : Except String String) (call : String → String → Json)
    (invoke : String → Except String String) (q : String) :
    analyze_legal_query w1 w2 c p call invoke q
      = analyze_legal_query w1 w2 c' p call invoke q ∧
    analyze_legal_query w1 w2 c p call invoke q
      = synthesize_results invoke q (execute_plan w1 w2 call q (plan_execution p)) :=
  ⟨rfl, rfl⟩

/-- C3: in both parallel and sequential modes, the dispatcher's output is
exactly the per-call results of the plan agents that resolve in the
registry map, in original plan order (unknown identifiers are dropped with
no output entry and no error); in particular the output length equals the
number of resolvable plan agents. -/
theorem claim_C3_dispatch_order (w1 w2 : String) (call : String → String → Json)
    (q : String) (agents : List Json) (par : Bool) :
    execute_plan w1 w2 call q
        (Json.obj [("agents", Json.arr agents), ("parallel", Json.bool par)])
      = (agents.filter (fun a => (agentMap w1 w2 a).isSome)).map
          (fun a => call ((agentMap w1 w2 a).getD "") q) ∧
    (execute_plan w1 w2 call q
        (Json.obj [("agents", Json.arr agents), ("parallel", Json.bool par)])).length
      = (agents.filter (fun a => (agentMap w1 w2 a).isSome)).length := by
  have hmain : execute_plan w1 w2 call q
        (Json.obj [("agents", Json.arr agents), ("parallel", Json.bool par)])
      = (agents.filter (fun a => (agentMap w1 w2 a).isSome)).map
          (fun a => call ((agentMap w1 w2 a).getD "") q) := by
    simp only [execute_plan, objGetD, objFields, lookupField, jsonElems, pyTruthy]
    cases par with
    | true => simp
    | false => simp [executeSeq_eq]
  exact ⟨hmain, by rw [hmain, List.length_map]⟩

/-- C4: every worker call yields a result dict and never raises; the
outcome is a success exactly when the HTTP status is 200 and the body
parses as JSON; every failure (timeout, transport error, non-200 status,
malformed body) carries an `error` reason; and a failing call never
suppresses sibling or subsequent calls — the dispatcher's output length
does not depend on what the calls return. -/
theorem claim_C4_call_worker (url : String) (outcome : HttpOutcome) :
    (getSuccessB (call_worker url outcome) = true ↔
      ∃ body j, outcome = HttpOutcome.response 200 body ∧ jsonLoads body = some j) ∧
    (getSuccessB (call_worker url outcome) = false →
      ∃ e, getErrorField (call_worker url outcome) = some (Json.str e)) ∧
    (∀ (w1 w2 : String) (call call' : String → String → Json) (q : String) (plan : Json),
      (execute_plan w1 w2 call q plan).length
        = (execute_plan w1 w2 call' q plan).length) := by
  have hlen : ∀ (w1 w2 : String) (call call' : String → String → Json) (q : String)
      (plan : Json),
      (execute_plan w1 w2 call q plan).length
        = (execute_plan w1 w2 call' q plan).length := by
    intro w1 w2 call call' q plan
    simp only [execute_plan]
    cases pyTruthy (objGetD plan "parallel" (Json.bool false)) with
    | true => simp
    | false => rw [executeSeq_eq, executeSeq_eq]; simp
  cases outcome with
  | timeout =>
      refine ⟨?_, fun _ => ⟨"Timeout", rfl⟩, hlen⟩
      constructor
      · intro h; exact absurd h (by simp [getSuccessB, call_worker, objGetD, objFields,
          lookupField, pyTruthy])
      · rintro ⟨body, j, hbe, -⟩; cases hbe
  | transportError e =>
      refine ⟨?_, fun _ => ⟨e, rfl⟩, hlen⟩
      constructor
      · intro h; exact absurd h (by simp [getSuccessB, call_worker, objGetD, objFields,
          lookupField, pyTruthy])
      · rintro ⟨body, j, hbe, -⟩; cases hbe
  | response status body =>
      by_cases hs : status = 200
      · subst hs
        cases hb : jsonLoads body with
        | some j =>
            refine ⟨?_, ?_, hlen⟩
            · exact ⟨fun _ => ⟨body, j, rfl, hb⟩, fun _ => by
                simp [getSuccessB, call_worker, hb, objGetD, objFields, lookupField,
                  pyTruthy]⟩
            · intro hfalse
              exact absurd hfalse (by simp [getSuccessB, call_worker, hb, objGetD,
                objFields, lookupField, pyTruthy])
        | none =>
            refine ⟨?_, fun _ => ⟨jsonDecodeErrMsg, by
              simp [getErrorField, call_worker, hb, objFields, lookupField]⟩, hlen⟩
            constructor
            · intro h
              exact absurd h (by simp [getSuccessB, call_worker, hb, objGetD, objFields,
                lookupField, pyTruthy])
            · rintro ⟨body', j, hbe, hj⟩
              cases hbe
              rw [hb] at hj
              cases hj
      · refine ⟨?_, fun _ => ⟨"HTTP " ++ toString status, by
          simp [getErrorField, call_worker, hs, objFields, lookupField]⟩, hlen⟩
        constructor
        · intro h
          exact absurd h (by simp [getSuccessB, call_worker, hs, objGetD, objFields,
            lookupField, pyTruthy])
        · rintro ⟨body', j, hbe, -⟩
          injection hbe with h1 h2
          exact absurd h1 hs

/-- Witness for C4: a timeout yields a failure entry with an error reason,
and a 200 response with a parseable body yields a success entry. -/
theorem claim_C4_call_worker_witness :
    (∃ e, getErrorField (call_worker "http://w" HttpOutcome.timeout)
      = some (Json.str e)) ∧
    getSuccessB (call_worker "http://w" (HttpOutcome.response 200 "\x7b\x7d")) = true :=
  ⟨(claim_C4_call_worker "http://w" HttpOutcome.timeout).2.1 rfl,
   (claim_C4_call_worker "http://w" (HttpOutcome.response 200 "\x7b\x7d")).1.mpr
     ⟨"\x7b\x7d", Json.obj [], rfl, rfl⟩⟩

/-- C8: `classify` never raises and returns exactly one of SIMPLE/COMPLEX;
it returns COMPLEX exactly when the Reasoning Step produced a response
containing "COMPLEX" as a case-insensitive substring, and SIMPLE for any
other response and for any Reasoning Step failure. -/
theorem claim_C8_classify (out : Except String String) :
    (classify_complexity out = QueryComplexity.SIMPLE ∨
      classify_complexity out = QueryComplexity.COMPLEX) ∧
    (classify_complexity out = QueryComplexity.COMPLEX ↔
      ∃ s, out = Except.ok s ∧ containsSub (pyUpperData s.data) "COMPLEX".data = true) := by
  cases out with
  | error e =>
      refine ⟨Or.inl rfl, ?_, ?_⟩
      · intro h
        exact absurd h (by simp [classify_complexity])
      · rintro ⟨s, hs, -⟩
        cases hs
  | ok s =>
      have key := containsSub_upper_strip s.data
      by_cases h : containsSub (pyUpperData (pyStripData s.data)) "COMPLEX".data = true
      · have hC : classify_complexity (Except.ok s) = QueryComplexity.COMPLEX := by
          simp [classify_complexity, h]
        refine ⟨Or.inr hC, fun _ => ⟨s, rfl, by rw [← key]; exact h⟩, fun _ => hC⟩
      · have hB : containsSub (pyUpperData (pyStripData s.data)) "COMPLEX".data = false := by
          revert h
          cases containsSub (pyUpperData (pyStripData s.data)) "COMPLEX".data <;> simp
        have hS : classify_complexity (Except.ok s) = QueryComplexity.SIMPLE := by
          simp [classify_complexity, hB]
        refine ⟨Or.inl hS, ?_, ?_⟩
        · intro hcon
          rw [hS] at hcon
          cases hcon
        · rintro ⟨s', hs', hc⟩
          injection hs' with hss
          subst hss
          rw [← key] at hc
          rw [hB] at hc
          cases hc

/-- C7 (counterexample): a Reasoning Step response consisting of two
structured objects — the first a decodable plan naming worker_agent_2 in
parallel mode — does NOT yield the first object: the greedy match spans
both objects, fails to decode, and the planner returns the default plan. -/
theorem claim_C7_counterexample :
    plan_execution (Except.ok ("\x7b\"agents\": [\"worker_agent_2\"], \"parallel\": true\x7d "
        ++ "\x7b\"agents\": [\"worker_agent_1\"], \"parallel\": false\x7d"))
      = planDefaultMinimal ∧
    jsonLoads "\x7b\"agents\": [\"worker_agent_2\"], \"parallel\": true\x7d"
      = some (Json.obj [("agents", Json.arr [Json.str "worker_agent_2"]),
                        ("parallel", Json.bool true)]) ∧
    objGetD planDefaultMinimal "agents" (Json.arr [])
      = Json.arr [Json.str "worker_agent_1"] :=
  ⟨rfl, rfl, rfl⟩

/-- C7 (amended): the Planner extracts the substring running from the
FIRST opening brace to the LAST closing brace of the response (the regex
is greedy) and decodes that span; a decode failure of the span — as with
two structured objects — returns the default plan rather than the first
object's plan. -/
theorem claim_C7_plan_greedy_extraction (pre mid post : List Char)
    (h1 : lbraceC ∉ pre) (h2 : rbraceC ∉ post) :
    plan_execution (Except.ok (String.mk (pre ++ lbraceC :: (mid ++ rbraceC :: post))))
      = match jsonLoads (String.mk (lbraceC :: (mid ++ [rbraceC]))) with
        | some plan => plan
        | none => planDefaultMinimal := by
  have e1 : extractBraces
      (pyStrip (String.mk (pre ++ lbraceC :: (mid ++ rbraceC :: post)))).data
      = some (lbraceC :: (mid ++ [rbraceC])) := by
    show extractBraces (pyStripData (pre ++ lbraceC :: (mid ++ rbraceC :: post))) = _
    rw [extractBraces_pyStrip, extractBraces_eq pre mid post h1 h2]
  show (match extractBraces
      (pyStrip (String.mk (pre ++ lbraceC :: (mid ++ rbraceC :: post)))).data with
    | some sub =>
        (match jsonLoads (String.mk sub) with
        | some plan => plan
        | none => planDefaultMinimal)
    | none => planDefaultFull) = _
  rw [e1]

/-- Witness for C7 (amended): a single-object response surrounded by
brace-free text decodes to exactly that object. -/
theorem claim_C7_plan_greedy_extraction_witness :
    plan_execution (Except.ok "ab\x7b\"agents\": [\"worker_agent_2\"]\x7dcd")
      = Json.obj [("agents", Json.arr [Json.str "worker_agent_2"])] := by
  have h := claim_C7_plan_greedy_extraction "ab".data
    "\"agents\": [\"worker_agent_2\"]".data "cd".data (by decide) (by decide)
  exact h.trans rfl

/-- C1 (counterexample): a decodable Reasoning Step response that is not a
proper plan is returned as-is by the Planner — `\x7b"agents": []\x7d` yields a
plan whose agents sequence is EMPTY (so the dispatcher iterates over
nothing), and which does not equal either default plan (it has one field,
the defaults have two and three). -/
theorem claim_C1_counterexample :
    plan_execution (Except.ok "\x7b\"agents\": []\x7d")
      = Json.obj [("agents", Json.arr [])] ∧
    jsonElems (objGetD (plan_execution (Except.ok "\x7b\"agents\": []\x7d"))
      "agents" (Json.arr [])) = [] ∧
    (objFields (plan_execution (Except.ok "\x7b\"agents\": []\x7d"))).length = 1 ∧
    (objFields planDefaultMinimal).length = 2 ∧
    (objFields planDefaultFull).length = 3 :=
  ⟨rfl, rfl, rfl, rfl, rfl⟩

/-- C1 (amended): when the Reasoning Step fails, or its response contains
no brace span, or the extracted span fails to decode, the Planner returns
a default plan naming the single fallback worker `worker_agent_1` in
sequential mode — a non-empty agents sequence; but a successfully decoded
object is returned without validation, so a decodable non-plan object can
reach dispatch with an empty or missing agents list. -/
theorem claim_C1_plan_default_on_undecodable (out : Except String String)
    (h : ∀ s, out = Except.ok s → plan_decode s = none) :
    objGetD (plan_execution out) "agents" (Json.arr [])
      = Json.arr [Json.str "worker_agent_1"] ∧
    objGetD (plan_execution out) "parallel" (Json.bool false) = Json.bool false ∧
    jsonElems (objGetD (plan_execution out) "agents" (Json.arr [])) ≠ [] := by
  cases out with
  | error e => exact ⟨rfl, rfl, by simp [plan_execution, planDefaultMinimal, objGetD,
      objFields, lookupField, jsonElems]⟩
  | ok s =>
      have hd := h s rfl
      unfold plan_decode at hd
      unfold plan_execution
      cases he : extractBraces (pyStrip s).data with
      | none =>
          simp only [he]
          exact ⟨rfl, rfl, by simp [planDefaultFull, objGetD, objFields, lookupField,
            jsonElems]⟩
      | some sub =>
          rw [he] at hd
          have hd' : jsonLoads (String.mk sub) = none := hd
          simp only [he, hd']
          exact ⟨rfl, rfl, by simp [planDefaultMinimal, objGetD, objFields, lookupField,
            jsonElems]⟩

/-- Witness for C1 (amended): a failed Reasoning Step and a brace-free
response both yield the fallback plan with the non-empty default agents
sequence. -/
theorem claim_C1_plan_default_witness :
    objGetD (plan_execution (Except.error "llm down")) "agents" (Json.arr [])
      = Json.arr [Json.str "worker_agent_1"] ∧
    objGetD (plan_execution (Except.ok "no structured output")) "agents" (Json.arr [])
      = Json.arr [Json.str "worker_agent_1"] :=
  ⟨(claim_C1_plan_default_on_undecodable (Except.error "llm down")
      (fun s hs => by cases hs)).1,
   (claim_C1_plan_default_on_undecodable (Except.ok "no structured output")
      (fun s hs => by cases hs; rfl)).1⟩

/-- C5: the shared task handler always terminates in exactly one of
COMPLETED, INPUT_REQUIRED or FAILED and never lets an exception escape (it
is a total function into tasks): a falsy extracted query yields
INPUT_REQUIRED; a successful processing result yields COMPLETED with the
result as a single text artifact; an exception from the processing
function yields FAILED carrying the exception's message. -/
theorem claim_C5_handle_task (prompt : String) (process : Json → Except String String)
    (task : PTask) :
    ((handle_task prompt process task).status.state = PTaskState.COMPLETED ∨
     (handle_task prompt process task).status.state = PTaskState.INPUT_REQUIRED ∨
     (handle_task prompt process task).status.state = PTaskState.FAILED) ∧
    (∀ q, extract_query task = Except.ok q → pyTruthy q = false →
      (handle_task prompt process task).status.state = PTaskState.INPUT_REQUIRED) ∧
    (∀ q r, extract_query task = Except.ok q → pyTruthy q = true →
      process q = Except.ok r →
      (handle_task prompt process task).status.state = PTaskState.COMPLETED ∧
      (handle_task prompt process task).artifacts
        = some (Json.arr [textArtifact r])) ∧
    (∀ q e, extract_query task = Except.ok q → pyTruthy q = true →
      process q = Except.error e →
      (handle_task prompt process task).status.state = PTaskState.FAILED ∧
      (handle_task prompt process task).status.message
        = some (agentMsg ("Error: " ++ e))) := by
  have hx : extract_query { task with status := ⟨PTaskState.PROCESSING, none⟩ }
      = extract_query task := rfl
  cases hq : extract_query task with
  | error e =>
      refine ⟨Or.inr (Or.inr ?_), ?_, ?_, ?_⟩
      · simp [handle_task, hx, hq]
      · intro q hq'
        cases hq'
      · intro q r hq'
        cases hq'
      · intro q e' hq'
        cases hq'
  | ok q =>
      cases ht : pyTruthy q with
      | false =>
          refine ⟨Or.inr (Or.inl ?_), ?_, ?_, ?_⟩
          · simp [handle_task, hx, hq, ht]
          · intro q' hq' _
            injection hq' with h'
            subst h'
            simp [handle_task, hx, hq, ht]
          · intro q' r hq' ht'
            injection hq' with h'
            subst h'
            rw [ht] at ht'
            cases ht'
          · intro q' e hq' ht'
            injection hq' with h'
            subst h'
            rw [ht] at ht'
            cases ht'
      | true =>
          cases hp : process q with
          | ok r =>
              refine ⟨Or.inl ?_, ?_, ?_, ?_⟩
              · simp [handle_task, hx, hq, ht, hp]
              · intro q' hq' ht'
                injection hq' with h'
                subst h'
                rw [ht] at ht'
                cases ht'
              · intro q' r' hq' _ hp'
                injection hq' with h'
                subst h'
                rw [hp] at hp'
                injection hp' with h''
                subst h''
                constructor <;> simp [handle_task, hx, hq, ht, hp]
              · intro q' e hq' _ hp'
                injection hq' with h'
                subst h'
                rw [hp] at hp'
                cases hp'
          | error e =>
              refine ⟨Or.inr (Or.inr ?_), ?_, ?_, ?_⟩
              · simp [handle_task, hx, hq, ht, hp]
              · intro q' hq' ht'
                injection hq' with h'
                subst h'
                rw [ht] at ht'
                cases ht'
              · intro q' r hq' _ hp'
                injection hq' with h'
                subst h'
                rw [hp] at hp'
                cases hp'
              · intro q' e' hq' _ hp'
                injection hq' with h'
                subst h'
                rw [hp] at hp'
                injection hp' with h''
                subst h''
                constructor <;> simp [handle_task, hx, hq, ht, hp]

/-- Witness for C5: a task carrying the query "hello" processed by a
successful function completes with the result artifact, and with a
failing function it fails with the error message. -/
theorem claim_C5_handle_task_witness :
    ((handle_task "Please provide a query" (fun _ => Except.ok "res")
        (PTask.mk (some (Json.obj [("content", Json.obj [("text", Json.str "hello")])]))
          ⟨PTaskState.PROCESSING, none⟩ none)).status.state = PTaskState.COMPLETED) ∧
    ((handle_task "Please provide a query" (fun _ => Except.error "boom")
        (PTask.mk (some (Json.obj [("content", Json.obj [("text", Json.str "hello")])]))
          ⟨PTaskState.PROCESSING, none⟩ none)).status.state = PTaskState.FAILED) :=
  ⟨((claim_C5_handle_task "Please provide a query" (fun _ => Except.ok "res")
      (PTask.mk (some (Json.obj [("content", Json.obj [("text", Json.str "hello")])]))
        ⟨PTaskState.PROCESSING, none⟩ none)).2.2.1 (Json.str "hello") "res"
      rfl rfl rfl).1,
   ((claim_C5_handle_task "Please provide a query" (fun _ => Except.error "boom")
      (PTask.mk (some (Json.obj [("content", Json.obj [("text", Json.str "hello")])]))
        ⟨PTaskState.PROCESSING, none⟩ none)).2.2.2 (Json.str "hello") "boom"
      rfl rfl rfl).1⟩

/-- C2 (counterexample): a protocol request with empty `message.content.text`
is answered `input_required` with ONE artifact (the prompt-for-input text),
not with an empty artifacts sequence. -/
theorem claim_C2_counterexample :
    responseState (handle_task_endpoint "Please provide a legal query"
        (fun _ => Except.ok "x")
        (Json.obj [("message", Json.obj [("content", Json.obj [("text", Json.str "")])])]))
      = Json.str "input_required" ∧
    (responseArtifacts (handle_task_endpoint "Please provide a legal query"
        (fun _ => Except.ok "x")
        (Json.obj [("message", Json.obj [("content", Json.obj [("text", Json.str "")])])]))).length
      = 1 :=
  ⟨rfl, rfl⟩

/-- C2 (amended): on a well-shaped request, an empty query text yields the
`input_required` response carrying the prompt-for-input text as its single
artifact; an uncaught processing exception yields the `failed` response
carrying `"Error: " ++ message` as its single artifact (the exception text
is present, in an artifact rather than a status message); a processed
query yields the `completed` response with the result as its single
artifact.  Each of the three responses carries exactly one artifact. -/
theorem claim_C2_endpoint_responses (prompt : String)
    (process : Json → Except String String) (idv : Json) (q : String) :
    (q = "" →
      handle_task_endpoint prompt process (mkTaskRequest idv q)
        = inputRequiredResponse idv prompt ∧
      responseState (inputRequiredResponse idv prompt) = Json.str "input_required" ∧
      responseArtifacts (inputRequiredResponse idv prompt) = [textArtifact prompt]) ∧
    (∀ e, q ≠ "" → process (Json.str q) = Except.error e →
      handle_task_endpoint prompt process (mkTaskRequest idv q) = failedResponse e ∧
      responseState (failedResponse e) = Json.str "failed" ∧
      responseArtifacts (failedResponse e) = [textArtifact ("Error: " ++ e)]) ∧
    (∀ r, q ≠ "" → process (Json.str q) = Except.ok r →
      handle_task_endpoint prompt process (mkTaskRequest idv q)
        = completedResponse idv r ∧
      responseArtifacts (completedResponse idv r) = [textArtifact r]) := by
  refine ⟨?_, ?_, ?_⟩
  · intro hq
    subst hq
    exact ⟨rfl, rfl, rfl⟩
  · intro e hq hp
    have hne : q.isEmpty = false := by
      cases h : q.isEmpty with
      | false => rfl
      | true => exact absurd ((String.isEmpty_iff q).mp h) hq
    refine ⟨?_, rfl, rfl⟩
    simp [handle_task_endpoint, endpointBody, mkTaskRequest, pyGetE, objGetD,
      objFields, lookupField, pyTruthy, hne, hp]
  · intro r hq hp
    have hne : q.isEmpty = false := by
      cases h : q.isEmpty with
      | false => rfl
      | true => exact absurd ((String.isEmpty_iff q).mp h) hq
    refine ⟨?_, rfl⟩
    simp [handle_task_endpoint, endpointBody, mkTaskRequest, pyGetE, objGetD,
      objFields, lookupField, pyTruthy, hne, hp]

/-- Witness for C2 (amended): a request with query "q" whose processing
raises "boom" gets the `failed` response with the error text as its one
artifact; an empty-query request gets the `input_required` response. -/
theorem claim_C2_endpoint_responses_witness :
    handle_task_endpoint "Please provide a query" (fun _ => Except.error "boom")
        (mkTaskRequest (Json.str "7") "q")
      = failedResponse "boom" ∧
    handle_task_endpoint "Please provide a query" (fun _ => Except.ok "x")
        (mkTaskRequest (Json.str "7") "")
      = inputRequiredResponse (Json.str "7") "Please provide a query" :=
  ⟨((claim_C2_endpoint_responses "Please provide a query" (fun _ => Except.error "boom")
      (Json.str "7") "q").2.1 "boom" (by decide) rfl).1,
   ((claim_C2_endpoint_responses "Please provide a query" (fun _ => Except.ok "x")
      (Json.str "7") "").1 rfl).1⟩

/-- The extraction loop of the synthesizer collects nothing from a results
sequence with no successful entry. -/
theorem extractResultTexts_allFailed : ∀ (i : Nat) (results : List Json),
    allFailed results → extractResultTexts i results = Except.ok []
  | _, [], _ => rfl
  | i, r :: rest, h => by
      obtain ⟨fs, rfl, hfalse⟩ := h _ (List.mem_cons_self _ _)
      have hrest : allFailed rest := fun r' hr' => h r' (List.mem_cons_of_mem _ hr')
      have hfalse' : pyTruthy ((lookupField fs "success").getD Json.null) = false := hfalse
      unfold extractResultTexts
      simp only [pyGetE, hfalse', Bool.false_eq_true, if_neg]
      exact extractResultTexts_allFailed (i + 1) rest hrest

/-- C6: on a results sequence with no successful entry, synthesize returns
exactly the canonical "no results" text and performs no Reasoning Step
call (its output does not depend on the Reasoning Step oracle at all); and
synthesize is a total function that converts any Reasoning Step failure
into the text `"Synthesis error: ..."` instead of an exception. -/
theorem claim_C6_synthesize (q : String) (results : List Json) :
    (allFailed results →
      (∀ invoke, synthesize_results invoke q results = noResultsMsg) ∧
      (∀ invoke invoke',
        synthesize_results invoke q results = synthesize_results invoke' q results)) ∧
    (∀ invoke texts e, extractResultTexts 0 results = Except.ok texts → texts ≠ [] →
      invoke (synthesis_prompt q texts) = Except.error e →
      synthesize_results invoke q results = "Synthesis error: " ++ e) := by
  constructor
  · intro hall
    have hex := extractResultTexts_allFailed 0 results hall
    have h1 : ∀ invoke : String → Except String String,
        synthesize_results invoke q results = noResultsMsg := by
      intro invoke
      simp [synthesize_results, hex, bind, Except.bind, pure, Except.pure]
    exact ⟨h1, fun invoke invoke' => (h1 invoke).trans (h1 invoke').symm⟩
  · intro invoke texts e hex hne hinv
    cases texts with
    | nil => exact absurd rfl hne
    | cons t ts =>
        simp [synthesize_results, hex, hinv, bind, Except.bind, pure, Except.pure,
          Functor.map, Except.map]

/-- Witness for C6: one failed entry yields the canonical text; one
successful entry with text "T1" and a failing Reasoning Step yields the
synthesis-error text. -/
theorem claim_C6_synthesize_witness :
    synthesize_results (fun _ => Except.ok "merged") "Q"
        [Json.obj [("success", Json.bool false), ("error", Json.str "Timeout")]]
      = noResultsMsg ∧
    synthesize_results (fun _ => Except.error "llm down") "Q"
        [Json.obj [("success", Json.bool true),
          ("result", Json.obj [("artifacts",
            Json.arr [Json.obj [("parts",
              Json.arr [Json.obj [("text", Json.str "T1")]])]])])]]
      = "Synthesis error: llm down" :=
  ⟨((claim_C6_synthesize "Q"
      [Json.obj [("success", Json.bool false), ("error", Json.str "Timeout")]]).1
      (by
        intro r hr
        rw [List.mem_singleton] at hr
        subst hr
        exact ⟨_, rfl, rfl⟩)).1 (fun _ => Except.ok "merged"),
   (claim_C6_synthesize "Q" _).2 (fun _ => Except.error "llm down")
      ["Agent 1 Result:\nT1"] "llm down" rfl (by simp) rfl⟩

/-- C9: the worker's `process_query` wrapper is a total function that never
raises: when capability (MCP) initialization fails it returns the
descriptive string "Error: Failed to initialize MCP tools"; when no
capabilities are configured, or resolution yields an empty tool list, it
returns "Error: No tools available"; and feeding its (always-successful)
output through the shared task handler on a truthy query produces a
COMPLETED task, not FAILED. -/
theorem claim_C9_worker_degraded (st : McpState) (cfg : List (String × String))
    (ir : Except String (List String)) (ai : Except String String) :
    (st.clientSet = false → cfg ≠ [] → ∀ e, ir = Except.error e →
      (worker_process_query st cfg ir ai).1
        = "Error: Failed to initialize MCP tools") ∧
    (st.clientSet = false → cfg = [] → st.tools = [] →
      (worker_process_query st cfg ir ai).1 = "Error: No tools available") ∧
    (st.clientSet = false → cfg ≠ [] → ir = Except.ok [] →
      (worker_process_query st cfg ir ai).1 = "Error: No tools available") ∧
    (∀ prompt task qv, extract_query task = Except.ok qv → pyTruthy qv = true →
      (handle_task prompt (fun _ => Except.ok (worker_process_query st cfg ir ai).1)
        task).status.state = PTaskState.COMPLETED) := by
  have hcfg : ∀ l : List (String × String), l ≠ [] → l.isEmpty = false := by
    intro l hl
    cases l with
    | nil => exact absurd rfl hl
    | cons a as => rfl
  refine ⟨?_, ?_, ?_, ?_⟩
  · intro hcs hne e hir
    subst hir
    simp [worker_process_query, run_react_agent, ensure_mcp_ready, hcs, hcfg cfg hne]
  · intro hcs hnil htools
    subst hnil
    simp [worker_process_query, run_react_agent, ensure_mcp_ready, hcs, htools]
  · intro hcs hne hir
    subst hir
    simp [worker_process_query, run_react_agent, ensure_mcp_ready, hcs, hcfg cfg hne]
  · intro prompt task qv hq ht
    have hx : extract_query { task with status := ⟨PTaskState.PROCESSING, none⟩ }
        = extract_query task := rfl
    simp [handle_task, hx, hq, ht]

/-- Witness for C9: with an unset client, a failing initialization yields
the MCP-failure string and an empty configuration yields the no-tools
string, and in each case the task handler completes. -/
theorem claim_C9_worker_degraded_witness :
    (worker_process_query ⟨false, []⟩ [("tool_1", "http://t")]
        (Except.error "unreachable") (Except.ok "r")).1
      = "Error: Failed to initialize MCP tools" ∧
    (worker_process_query ⟨false, []⟩ [] (Except.ok ["x"]) (Except.ok "r")).1
      = "Error: No tools available" ∧
    (handle_task "Please provide a query"
        (fun _ => Except.ok (worker_process_query ⟨false, []⟩ []
          (Except.ok ["x"]) (Except.ok "r")).1)
        (PTask.mk (some (Json.obj [("content", Json.obj [("text", Json.str "go")])]))
          ⟨PTaskState.PROCESSING, none⟩ none)).status.state = PTaskState.COMPLETED :=
  ⟨(claim_C9_worker_degraded ⟨false, []⟩ [("tool_1", "http://t")]
      (Except.error "unreachable") (Except.ok "r")).1 rfl (by simp) "unreachable" rfl,
   (claim_C9_worker_degraded ⟨false, []⟩ [] (Except.ok ["x"]) (Except.ok "r")).2.1
      rfl rfl rfl,
   (claim_C9_worker_degraded ⟨false, []⟩ [] (Except.ok ["x"]) (Except.ok "r")).2.2.2
      "Please provide a query"
      (PTask.mk (some (Json.obj [("content", Json.obj [("text", Json.str "go")])]))
        ⟨PTaskState.PROCESSING, none⟩ none)
      (Json.str "go") rfl rfl⟩
